import Mathlib

/-!
Verification of the star-schema data-preparation pipeline of the
Capstone-Project-Report repository (`powerbi/powerbi_data_preparation.py`
and the cleaning scripts).  Tables are embedded as lists of typed rows;
floating-point columns are embedded as rationals; nullable cells
(pandas `NaN`/`None`) as `Option`.
-/

namespace Capstone

/-- First-seen deduplication: embedding of pandas `drop_duplicates()` /
`Series.unique()`, which keep the first occurrence of each value in
row order. -/
def firstSeenDedup {α : Type} [DecidableEq α] : List α → List α
  | [] => []
  | x :: xs => x :: (firstSeenDedup xs).filter (fun y => decide (y ≠ x))

/-- Pair each element with a 1-based position, embedding
`range(1, len(dim) + 1)` used for surrogate identifiers. -/
def assignIds {α : Type} (start : Nat) : List α → List (Nat × α)
  | [] => []
  | x :: xs => (start, x) :: assignIds (start + 1) xs

/-- Ascending insertion for `Int` lists (embedding of Python `sorted`). -/
def insertInt (x : Int) : List Int → List Int
  | [] => [x]
  | y :: ys => if x ≤ y then x :: y :: ys else y :: insertInt x ys

/-- Ascending sort for `Int` lists (embedding of Python `sorted`). -/
def sortInts : List Int → List Int
  | [] => []
  | x :: xs => insertInt x (sortInts xs)

/-- One row of the source table consumed by the Power BI preparation
pipeline (columns of `create_sample_agriculture_data`).  `Crop_Year` is
non-null: the upstream cleaning fills missing years with the median
before the star-schema stage.  The other key columns stay nullable. -/
structure SourceRow where
  State_Name : Option String
  District_Name : Option String
  Crop_Year : Int
  Season : Option String
  Crop : Option String
  Area_Hectares : ℚ
  Production_Tonnes : ℚ
  Yield_Per_Hectare : Option ℚ
  Temperature_Avg : ℚ
  Rainfall_MM : ℚ
deriving DecidableEq, Repr

/-- Row of the `states` dimension table: `(State_ID, State_Name)`. -/
structure StateDimRow where
  State_ID : Nat
  State_Name : Option String
deriving DecidableEq, Repr

/-- Row of the `crops` dimension table: `(Crop_ID, Crop)`. -/
structure CropDimRow where
  Crop_ID : Nat
  Crop : Option String
deriving DecidableEq, Repr

/-- Row of the `seasons` dimension table: `(Season_ID, Season)`. -/
structure SeasonDimRow where
  Season_ID : Nat
  Season : Option String
deriving DecidableEq, Repr

/-- Row of the `dates` dimension table, as built in
`create_dimension_tables`: `Date_ID` is the year itself, `Decade` is
`f"{year//10*10}s"`, `IsCurrentYear` compares with the build date. -/
structure DateDimRow where
  Date_ID : Int
  Year : Int
  Decade : String
  IsCurrentYear : Bool
deriving DecidableEq, Repr

/-- The four dimension tables returned by `create_dimension_tables`. -/
structure Dimensions where
  states : List StateDimRow
  crops : List CropDimRow
  seasons : List SeasonDimRow
  dates : List DateDimRow
deriving DecidableEq, Repr

/-- Embedding of `PowerBIDataPreprocessor.create_dimension_tables`.
`currentYear` stands for `datetime.now().year`, a build-time input.
State/Crop/Season dimensions: `drop_duplicates()` then
`ID = range(1, len+1)`.  Date dimension: `sorted(df['Crop_Year'].unique())`
with `Date_ID = year` (not a 1-based counter). -/
def create_dimension_tables (currentYear : Int) (df : List SourceRow) : Dimensions :=
  let states := (assignIds 1 (firstSeenDedup (df.map (·.State_Name)))).map
    (fun p => StateDimRow.mk p.1 p.2)
  let crops := (assignIds 1 (firstSeenDedup (df.map (·.Crop)))).map
    (fun p => CropDimRow.mk p.1 p.2)
  let seasons := (assignIds 1 (firstSeenDedup (df.map (·.Season)))).map
    (fun p => SeasonDimRow.mk p.1 p.2)
  let years := sortInts (firstSeenDedup (df.map (·.Crop_Year)))
  let dates := years.map (fun y =>
    DateDimRow.mk y y (toString (Int.fdiv y 10 * 10) ++ "s") (decide (y = currentYear)))
  Dimensions.mk states crops seasons dates

/-- Working row of the fact-table build: the source fields plus the
four surrogate-identifier columns added one merge at a time
(pandas keeps all columns of the left frame across the four merges;
the natural-key columns live in `src`). -/
structure MergedRow where
  src : SourceRow
  State_ID : Option Nat
  Crop_ID : Option Nat
  Season_ID : Option Nat
  Date_ID : Option Int
deriving DecidableEq, Repr

/-- One pandas left merge, row by row: every left row produces its list
of matches, or a single row with a null key when there is no match;
left order is preserved. -/
def mergeRows (f : MergedRow → List MergedRow) : List MergedRow → List MergedRow
  | [] => []
  | r :: rs => f r ++ mergeRows f rs

/-- Matches of one left row against the `states` dimension
(`merge(..., on State_Name, how='left')`).  pandas matches `NaN` keys to
`NaN` keys in merges, which the `Option` equality reflects. -/
def mergeStates (dim : List StateDimRow) (r : MergedRow) : List MergedRow :=
  match dim.filter (fun d => decide (d.State_Name = r.src.State_Name)) with
  | [] => [{ r with State_ID := none }]
  | ms => ms.map (fun d => { r with State_ID := some d.State_ID })

/-- Matches of one left row against the `crops` dimension. -/
def mergeCrops (dim : List CropDimRow) (r : MergedRow) : List MergedRow :=
  match dim.filter (fun d => decide (d.Crop = r.src.Crop)) with
  | [] => [{ r with Crop_ID := none }]
  | ms => ms.map (fun d => { r with Crop_ID := some d.Crop_ID })

/-- Matches of one left row against the `seasons` dimension. -/
def mergeSeasons (dim : List SeasonDimRow) (r : MergedRow) : List MergedRow :=
  match dim.filter (fun d => decide (d.Season = r.src.Season)) with
  | [] => [{ r with Season_ID := none }]
  | ms => ms.map (fun d => { r with Season_ID := some d.Season_ID })

/-- Matches of one left row against the `dates` dimension
(`merge(..., left_on='Crop_Year', right_on='Year', how='left')`). -/
def mergeDates (dim : List DateDimRow) (r : MergedRow) : List MergedRow :=
  match dim.filter (fun d => decide (d.Year = r.src.Crop_Year)) with
  | [] => [{ r with Date_ID := none }]
  | ms => ms.map (fun d => { r with Date_ID := some d.Date_ID })

/-- The four successive left merges of `create_fact_table`, before the
final column projection. -/
def factMerged (df : List SourceRow) (dims : Dimensions) : List MergedRow :=
  let base := df.map (fun r => MergedRow.mk r none none none none)
  mergeRows (mergeDates dims.dates)
    (mergeRows (mergeSeasons dims.seasons)
      (mergeRows (mergeCrops dims.crops)
        (mergeRows (mergeStates dims.states) base)))

/-- One row of the exported fact table (the `fact_columns` projection of
`create_fact_table`). -/
structure FactRow where
  State_ID : Option Nat
  Crop_ID : Option Nat
  Season_ID : Option Nat
  Date_ID : Option Int
  District_Name : Option String
  Area_Hectares : ℚ
  Production_Tonnes : ℚ
  Yield_Per_Hectare : Option ℚ
  Temperature_Avg : ℚ
  Rainfall_MM : ℚ
deriving DecidableEq, Repr

/-- The `fact_columns` projection: keep surrogate identifiers and
measures, drop the natural-key columns. -/
def projectFact (m : MergedRow) : FactRow :=
  FactRow.mk m.State_ID m.Crop_ID m.Season_ID m.Date_ID m.src.District_Name
    m.src.Area_Hectares m.src.Production_Tonnes m.src.Yield_Per_Hectare
    m.src.Temperature_Avg m.src.Rainfall_MM

/-- Embedding of `PowerBIDataPreprocessor.create_fact_table`. -/
def create_fact_table (df : List SourceRow) (dims : Dimensions) : List FactRow :=
  (factMerged df dims).map projectFact

/-- Round-half-to-even on rationals: the tie policy of
`numpy.round`/`DataFrame.round`. -/
def roundHalfEven (q : ℚ) : Int :=
  let f := ⌊q⌋
  let r := q - (f : ℚ)
  if r < 1/2 then f
  else if 1/2 < r then f + 1
  else if f % 2 = 0 then f else f + 1

/-- `DataFrame.round(3)`: round to 3 decimal places, half to even. -/
def round3 (q : ℚ) : ℚ := (roundHalfEven (q * 1000) : ℚ) / 1000

/-- Arithmetic mean of a list of rationals (pandas `mean` over the
non-null values of a group; the groups that occur are non-empty). -/
def listMean (xs : List ℚ) : ℚ := xs.sum / (xs.length : ℚ)

/-- pandas sample standard deviation (`std`, `ddof=1`) is null for
fewer than two non-null observations.  The `some` value carried here is
the sample variance (the square of the standard deviation): the square
root of a non-negative rational is generally irrational, and the
definedness of the field — the only aspect the specification speaks
about — coincides for the two. -/
def sampleVariance (xs : List ℚ) : Option ℚ :=
  if xs.length < 2 then none
  else some (((xs.map (fun x => (x - listMean xs) ^ 2)).sum) / ((xs.length : ℚ) - 1))

/-- Ascending insertion for `String` lists in the lexicographic order
on character sequences (the order Python applies to the string group
keys; `x` goes before `y` unless `y < x`). -/
def insertStr (x : String) : List String → List String
  | [] => [x]
  | y :: ys => if decide (¬ y.data < x.data) then x :: y :: ys else y :: insertStr x ys

/-- Ascending sort for `String` lists: pandas `groupby` emits group
keys in ascending order (`sort=True` default). -/
def sortStrs : List String → List String
  | [] => []
  | x :: xs => insertStr x (sortStrs xs)

/-- One row of the exported `state_summary` table.  `Avg_Yield` and
`Yield_StdDev` are null when the group has no, respectively fewer than
two, non-null yields (see `sampleVariance` on what `some` carries). -/
structure StateSummaryRow where
  State_Name : String
  Total_Area : ℚ
  Avg_Area : ℚ
  Total_Production : ℚ
  Avg_Production : ℚ
  Avg_Yield : Option ℚ
  Yield_StdDev : Option ℚ
  Crop_Diversity : Nat
deriving DecidableEq, Repr

/-- The aggregation row of `create_summary_tables` for one state group:
sums and means of area and production, mean/std of yield over the
group's non-null yields (pandas aggregations skip `NaN`),
`nunique` of `Crop` (which also skips `NaN`), all rounded to 3 places. -/
def mkStateSummaryRow (df : List SourceRow) (k : String) : StateSummaryRow :=
  let grp := df.filter (fun r => decide (r.State_Name = some k))
  let areas := grp.map (·.Area_Hectares)
  let prods := grp.map (·.Production_Tonnes)
  let yields := grp.filterMap (·.Yield_Per_Hectare)
  StateSummaryRow.mk k
    (round3 areas.sum)
    (round3 (listMean areas))
    (round3 prods.sum)
    (round3 (listMean prods))
    (if yields.isEmpty then none else some (round3 (listMean yields)))
    ((sampleVariance yields).map round3)
    ((firstSeenDedup (grp.filterMap (·.Crop))).length)

/-- Embedding of the state-level part of
`PowerBIDataPreprocessor.create_summary_tables`:
`df.groupby(['State_Name']).agg({...}).round(3)`.  The group keys are
the distinct non-null values of `State_Name` in ascending order —
pandas `groupby` sorts keys and, with its default `dropna=True`,
silently excludes rows whose group key is null. -/
def create_summary_state (df : List SourceRow) : List StateSummaryRow :=
  (sortStrs (firstSeenDedup (df.filterMap (·.State_Name)))).map (mkStateSummaryRow df)

/-- One row of the cleaning-stage table (the columns STEP 5 / STEP 6 of
the cleaning script read), after missing-value handling. -/
structure CleanRow where
  State_Name : Option String
  District_Name : Option String
  Crop_Year : Int
  Season : Option String
  Crop : Option String
  Area : ℚ
  Production : ℚ
deriving DecidableEq, Repr

/-- A cleaning-stage row after STEP 5 added the `Productivity` column.
The `Option` mirrors float nullability (`NaN`); the computation below
always produces a value. -/
structure ProdRow where
  row : CleanRow
  Productivity : Option ℚ
deriving DecidableEq, Repr

/-- STEP 5 of the cleaning script:
`df['Productivity'] = df['Production'] / (df['Area'] + 0.001)` —
the comment in the source reads "Add small value to avoid division by
zero", so the result is an ordinary finite float even when `Area == 0`. -/
def addProductivity (r : CleanRow) : ProdRow :=
  ProdRow.mk r (some (r.Production / (r.Area + 1/1000)))

/-- STEP 5 applied to the whole table. -/
def add_productivity_step (df : List CleanRow) : List ProdRow :=
  df.map addProductivity

/-- Ascending insertion for `ℚ` lists. -/
def insertRat (x : ℚ) : List ℚ → List ℚ
  | [] => [x]
  | y :: ys => if x ≤ y then x :: y :: ys else y :: insertRat x ys

/-- Ascending sort for `ℚ` lists (pandas sorts the column before
interpolating a quantile). -/
def sortRats : List ℚ → List ℚ
  | [] => []
  | x :: xs => insertRat x (sortRats xs)

/-- pandas `Series.quantile(q)` with the default linear interpolation:
on the sorted values `s` of length `n`, the result at rank
`h = q*(n-1)` is `s[⌊h⌋] + (h-⌊h⌋) * (s[⌊h⌋+1] - s[⌊h⌋])`. -/
def quantile (xs : List ℚ) (q : ℚ) : ℚ :=
  let s := sortRats xs
  let h := q * ((s.length : ℚ) - 1)
  let i := (⌊h⌋).toNat
  let lo := s.getD i 0
  let hi := s.getD (i + 1) lo
  lo + (h - (⌊h⌋ : ℚ)) * (hi - lo)

/-- What STEP 6 of the cleaning script computes and prints for one
numeric column: quartiles, the 1.5×IQR bounds, and the number of rows
falling outside them. -/
structure OutlierReport where
  column : String
  Q1 : ℚ
  Q3 : ℚ
  lower_bound : ℚ
  upper_bound : ℚ
  outlier_count : Nat
deriving DecidableEq, Repr

/-- The IQR analysis of one numeric column, as in STEP 6. -/
def outlierReportFor (name : String) (vals : List ℚ) : OutlierReport :=
  let q1 := quantile vals (1/4)
  let q3 := quantile vals (3/4)
  let iqr := q3 - q1
  let lb := q1 - 3/2 * iqr
  let ub := q3 + 3/2 * iqr
  OutlierReport.mk name q1 q3 lb ub
    ((vals.filter (fun v => decide (v < lb ∨ ub < v))).length)

/-- STEP 6 of the cleaning script (outlier detection): it analyses the
`Area`, `Production` and `Productivity` columns and reports, keeping
every outlier ("Keeping outliers - may represent valid agricultural
variations"); the table itself is returned as it came in — the loop in
the source only reads `df`. -/
def outlier_detection_step (df : List ProdRow) : List ProdRow × List OutlierReport :=
  (df,
    [ outlierReportFor "Area" (df.map (·.row.Area))
    , outlierReportFor "Production" (df.map (·.row.Production))
    , outlierReportFor "Productivity" (df.filterMap (·.Productivity)) ])

/-- A dynamically typed cell value, for the schema-generic embedding
of pandas column access. -/
inductive PVal
  | str : String → PVal
  | int : Int → PVal
  | rat : ℚ → PVal
deriving DecidableEq, Repr

/-- A table with a dynamic column set, as pandas sees it: a list of
column names and, per row, the cell of each column. -/
structure DynTable where
  cols : List String
  rows : List (String → Option PVal)

/-- pandas column selection `df[['c']]`: the values of the column when
it exists, a `KeyError` otherwise. -/
def selectColumn (t : DynTable) (c : String) : Except String (List (Option PVal)) :=
  if c ∈ t.cols then Except.ok (t.rows.map (fun r => r c))
  else Except.error ("KeyError: " ++ c)

/-- Schema-generic embedding of `create_dimension_tables`, keeping the
part that depends on the column set: each dimension starts with the
column selection `df[['State_Name']]` (etc.) followed by
`drop_duplicates()`.  The result is the deduplicated natural-key
column of each of the four dimensions, or the `KeyError` that pandas
raises on the first absent column. -/
def create_dimension_tables_dyn (t : DynTable) :
    Except String (List (Option PVal) × List (Option PVal) × List (Option PVal) × List (Option PVal)) := do
  let sn ← selectColumn t "State_Name"
  let cr ← selectColumn t "Crop"
  let se ← selectColumn t "Season"
  let yr ← selectColumn t "Crop_Year"
  Except.ok (firstSeenDedup sn, firstSeenDedup cr, firstSeenDedup se, firstSeenDedup yr)

/-! Concrete fixture tables used by witnesses and counterexamples. -/

/-- Fixture row: state "A", year 2020, area 10, production 100. -/
def row1 : SourceRow :=
  SourceRow.mk (some "A") (some "D1") 2020 (some "Kharif") (some "Rice") 10 100 (some 10) 25 100

/-- Fixture row: state "A", year 2018, area 20, production 200. -/
def row2 : SourceRow :=
  SourceRow.mk (some "A") (some "D2") 2018 (some "Rabi") (some "Wheat") 20 200 (some 10) 24 90

/-- Fixture row: state "B", year 2018, area 30, production 150. -/
def row3 : SourceRow :=
  SourceRow.mk (some "B") (some "D3") 2018 (some "Kharif") (some "Rice") 30 150 (some 5) 26 80

/-- The synthetic 3-row source table with states `["A","A","B"]`,
areas `[10,20,30]`, productions `[100,200,150]`. -/
def df3 : List SourceRow := [row1, row2, row3]

/-- A source table with a null state key next to an observed one. -/
def dfNull : List SourceRow :=
  [ row1
  , SourceRow.mk none (some "D4") 2019 (some "Rabi") (some "Wheat") 20 50 (some (5/2)) 22 70 ]

/-- A dynamic table whose column set lacks `State_Name`. -/
def tNoState : DynTable :=
  DynTable.mk ["Crop", "Season", "Crop_Year"]
    [fun c => if c = "Crop" then some (PVal.str "Rice") else
      if c = "Season" then some (PVal.str "Kharif") else
      if c = "Crop_Year" then some (PVal.int 2020) else none]

/-- A cleaning-stage table whose `Area` column carries the synthetic
outlier 100 beyond the 1.5×IQR bounds of [1,2,3,4,100]. -/
def dfOutlier : List ProdRow :=
  add_productivity_step
    [ CleanRow.mk (some "A") (some "D1") 2020 (some "Kharif") (some "Rice") 1 10
    , CleanRow.mk (some "A") (some "D2") 2020 (some "Rabi") (some "Wheat") 2 20
    , CleanRow.mk (some "B") (some "D3") 2021 (some "Kharif") (some "Rice") 3 30
    , CleanRow.mk (some "B") (some "D4") 2021 (some "Rabi") (some "Wheat") 4 40
    , CleanRow.mk (some "C") (some "D5") 2022 (some "Summer") (some "Maize") 100 50 ]

/-! Helper lemmas. -/

theorem mem_firstSeenDedup {α : Type} [DecidableEq α] (l : List α) (a : α) :
    a ∈ firstSeenDedup l ↔ a ∈ l := by
  induction l with
  | nil => simp [firstSeenDedup]
  | cons x xs ih =>
    rw [firstSeenDedup]
    by_cases hax : a = x
    · subst hax; simp
    · simp only [List.mem_cons, List.mem_filter, decide_eq_true_eq, ih]
      constructor
      · rintro (h | ⟨h, _⟩)
        · exact Or.inl h
        · exact Or.inr h
      · rintro (h | h)
        · exact Or.inl h
        · exact Or.inr ⟨h, hax⟩

theorem nodup_firstSeenDedup {α : Type} [DecidableEq α] (l : List α) :
    (firstSeenDedup l).Nodup := by
  induction l with
  | nil => simp [firstSeenDedup]
  | cons x xs ih =>
    rw [firstSeenDedup]
    refine List.nodup_cons.mpr ⟨?_, ih.filter _⟩
    intro hx
    have := (List.mem_filter.mp hx).2
    simp at this

theorem assignIds_map_snd {α : Type} (s : Nat) (l : List α) :
    (assignIds s l).map Prod.snd = l := by
  induction l generalizing s with
  | nil => rfl
  | cons x xs ih => simp [assignIds, ih]

theorem assignIds_map_fst {α : Type} (s : Nat) (l : List α) :
    (assignIds s l).map Prod.fst = List.range' s l.length := by
  induction l generalizing s with
  | nil => rfl
  | cons x xs ih => simp [assignIds, ih, List.range']

theorem mem_insertInt (x a : Int) (l : List Int) :
    a ∈ insertInt x l ↔ a = x ∨ a ∈ l := by
  induction l with
  | nil => simp [insertInt]
  | cons y ys ih =>
    simp only [insertInt]
    split
    · simp
    · simp [ih]; tauto

theorem insertInt_perm (x : Int) (l : List Int) : List.Perm (insertInt x l) (x :: l) := by
  induction l with
  | nil => simp [insertInt]
  | cons y ys ih =>
    simp only [insertInt]
    split
    · exact List.Perm.refl _
    · exact List.Perm.trans (List.Perm.cons y ih) (List.Perm.swap x y ys)

theorem sortInts_perm (l : List Int) : List.Perm (sortInts l) l := by
  induction l with
  | nil => exact List.Perm.refl _
  | cons x xs ih =>
    exact List.Perm.trans (insertInt_perm x (sortInts xs)) (List.Perm.cons x ih)

theorem mem_sortInts (a : Int) (l : List Int) : a ∈ sortInts l ↔ a ∈ l :=
  (sortInts_perm l).mem_iff

theorem nodup_sortInts (l : List Int) (h : l.Nodup) : (sortInts l).Nodup :=
  (sortInts_perm l).nodup_iff.mpr h

theorem sorted_insertInt (x : Int) (l : List Int)
    (h : List.Sorted (· ≤ ·) l) : List.Sorted (· ≤ ·) (insertInt x l) := by
  induction l with
  | nil => simp [insertInt]
  | cons y ys ih =>
    simp only [insertInt]
    split
    · rename_i hxy
      refine List.sorted_cons.mpr ⟨?_, h⟩
      intro b hb
      rcases List.mem_cons.mp hb with rfl | hb
      · exact hxy
      · exact le_trans hxy ((List.sorted_cons.mp h).1 b hb)
    · rename_i hxy
      push_neg at hxy
      have hys := (List.sorted_cons.mp h).2
      refine List.sorted_cons.mpr ⟨?_, ih hys⟩
      intro b hb
      rcases (mem_insertInt x b ys).mp hb with rfl | hb
      · exact le_of_lt hxy
      · exact (List.sorted_cons.mp h).1 b hb

theorem sorted_sortInts (l : List Int) : List.Sorted (· ≤ ·) (sortInts l) := by
  induction l with
  | nil => simp [sortInts]
  | cons x xs ih => exact sorted_insertInt x (sortInts xs) ih

/-- In a list whose image under `key` has no duplicates, at most one
element carries any given key. -/
theorem filter_key_length_le_one {δ κ : Type} [DecidableEq κ]
    (key : δ → κ) (l : List δ) (h : (l.map key).Nodup) (k : κ) :
    (l.filter (fun d => decide (key d = k))).length ≤ 1 := by
  induction l with
  | nil => simp
  | cons x xs ih =>
    rw [List.map_cons, List.nodup_cons] at h
    by_cases hk : key x = k
    · have hnil : xs.filter (fun d => decide (key d = k)) = [] := by
        rw [List.filter_eq_nil_iff]
        intro d hd hdk
        have hdx : key d = key x := (of_decide_eq_true hdk).trans hk.symm
        exact h.1 (hdx ▸ List.mem_map_of_mem key hd)
      simp [List.filter_cons, hk, hnil]
    · simpa [List.filter_cons, hk] using ih h.2

theorem mergeRows_length (f : MergedRow → List MergedRow)
    (h : ∀ r, (f r).length = 1) (rs : List MergedRow) :
    (mergeRows f rs).length = rs.length := by
  induction rs with
  | nil => rfl
  | cons r rs ih => simp [mergeRows, h r, ih, Nat.add_comm]

theorem mem_mergeRows (f : MergedRow → List MergedRow) (rs : List MergedRow)
    (m : MergedRow) : m ∈ mergeRows f rs ↔ ∃ r ∈ rs, m ∈ f r := by
  induction rs with
  | nil => simp [mergeRows]
  | cons r rs ih => simp [mergeRows, ih]

theorem mergeStates_length (dim : List StateDimRow)
    (h : (dim.map (·.State_Name)).Nodup) (r : MergedRow) :
    (mergeStates dim r).length = 1 := by
  have hle := filter_key_length_le_one (·.State_Name) dim h r.src.State_Name
  unfold mergeStates
  cases hfe : dim.filter (fun d => decide (d.State_Name = r.src.State_Name)) with
  | nil => rfl
  | cons d ds =>
    rw [hfe] at hle
    show (List.map (fun d => { r with State_ID := some d.State_ID }) (d :: ds)).length = 1
    rw [List.length_map]
    exact Nat.le_antisymm hle (by simp)

theorem mergeCrops_length (dim : List CropDimRow)
    (h : (dim.map (·.Crop)).Nodup) (r : MergedRow) :
    (mergeCrops dim r).length = 1 := by
  have hle := filter_key_length_le_one (·.Crop) dim h r.src.Crop
  unfold mergeCrops
  cases hfe : dim.filter (fun d => decide (d.Crop = r.src.Crop)) with
  | nil => rfl
  | cons d ds =>
    rw [hfe] at hle
    show (List.map (fun d => { r with Crop_ID := some d.Crop_ID }) (d :: ds)).length = 1
    rw [List.length_map]
    exact Nat.le_antisymm hle (by simp)

theorem mergeSeasons_length (dim : List SeasonDimRow)
    (h : (dim.map (·.Season)).Nodup) (r : MergedRow) :
    (mergeSeasons dim r).length = 1 := by
  have hle := filter_key_length_le_one (·.Season) dim h r.src.Season
  unfold mergeSeasons
  cases hfe : dim.filter (fun d => decide (d.Season = r.src.Season)) with
  | nil => rfl
  | cons d ds =>
    rw [hfe] at hle
    show (List.map (fun d => { r with Season_ID := some d.Season_ID }) (d :: ds)).length = 1
    rw [List.length_map]
    exact Nat.le_antisymm hle (by simp)

theorem mergeDates_length (dim : List DateDimRow)
    (h : (dim.map (·.Year)).Nodup) (r : MergedRow) :
    (mergeDates dim r).length = 1 := by
  have hle := filter_key_length_le_one (·.Year) dim h r.src.Crop_Year
  unfold mergeDates
  cases hfe : dim.filter (fun d => decide (d.Year = r.src.Crop_Year)) with
  | nil => rfl
  | cons d ds =>
    rw [hfe] at hle
    show (List.map (fun d => { r with Date_ID := some d.Date_ID }) (d :: ds)).length = 1
    rw [List.length_map]
    exact Nat.le_antisymm hle (by simp)

/-- What the states merge guarantees for a row: either no dimension
entry matched and the surrogate identifier is null, or some entry with
the row's natural key supplied it. -/
def stateOk (states : List StateDimRow) (m : MergedRow) : Prop :=
  (m.State_ID = none ∧
      states.filter (fun d => decide (d.State_Name = m.src.State_Name)) = []) ∨
    ∃ d ∈ states, d.State_Name = m.src.State_Name ∧ m.State_ID = some d.State_ID

/-- Analogue of `stateOk` for the crops merge. -/
def cropOk (crops : List CropDimRow) (m : MergedRow) : Prop :=
  (m.Crop_ID = none ∧
      crops.filter (fun d => decide (d.Crop = m.src.Crop)) = []) ∨
    ∃ d ∈ crops, d.Crop = m.src.Crop ∧ m.Crop_ID = some d.Crop_ID

/-- Analogue of `stateOk` for the seasons merge. -/
def seasonOk (seasons : List SeasonDimRow) (m : MergedRow) : Prop :=
  (m.Season_ID = none ∧
      seasons.filter (fun d => decide (d.Season = m.src.Season)) = []) ∨
    ∃ d ∈ seasons, d.Season = m.src.Season ∧ m.Season_ID = some d.Season_ID

/-- Analogue of `stateOk` for the dates merge. -/
def dateOk (dates : List DateDimRow) (m : MergedRow) : Prop :=
  (m.Date_ID = none ∧
      dates.filter (fun d => decide (d.Year = m.src.Crop_Year)) = []) ∨
    ∃ d ∈ dates, d.Year = m.src.Crop_Year ∧ m.Date_ID = some d.Date_ID

theorem mem_mergeStates (dim : List StateDimRow) (r m : MergedRow)
    (hm : m ∈ mergeStates dim r) :
    m.src = r.src ∧ m.Crop_ID = r.Crop_ID ∧ m.Season_ID = r.Season_ID ∧
      m.Date_ID = r.Date_ID ∧ stateOk dim m := by
  unfold mergeStates at hm
  cases hfe : dim.filter (fun d => decide (d.State_Name = r.src.State_Name)) with
  | nil =>
    rw [hfe] at hm
    have hm' : m ∈ [{ r with State_ID := none }] := hm
    rw [List.mem_singleton] at hm'
    subst hm'
    exact ⟨rfl, rfl, rfl, rfl, Or.inl ⟨rfl, hfe⟩⟩
  | cons d ds =>
    rw [hfe] at hm
    have hm' : m ∈ (d :: ds).map (fun d => { r with State_ID := some d.State_ID }) := hm
    obtain ⟨d', hd', rfl⟩ := List.mem_map.mp hm'
    have hd'f : d' ∈ dim.filter (fun d => decide (d.State_Name = r.src.State_Name)) := by
      rw [hfe]; exact hd'
    have := List.mem_filter.mp hd'f
    exact ⟨rfl, rfl, rfl, rfl,
      Or.inr ⟨d', this.1, of_decide_eq_true this.2, rfl⟩⟩

theorem mem_mergeCrops (dim : List CropDimRow) (r m : MergedRow)
    (hm : m ∈ mergeCrops dim r) :
    m.src = r.src ∧ m.State_ID = r.State_ID ∧ m.Season_ID = r.Season_ID ∧
      m.Date_ID = r.Date_ID ∧ cropOk dim m := by
  unfold mergeCrops at hm
  cases hfe : dim.filter (fun d => decide (d.Crop = r.src.Crop)) with
  | nil =>
    rw [hfe] at hm
    have hm' : m ∈ [{ r with Crop_ID := none }] := hm
    rw [List.mem_singleton] at hm'
    subst hm'
    exact ⟨rfl, rfl, rfl, rfl, Or.inl ⟨rfl, hfe⟩⟩
  | cons d ds =>
    rw [hfe] at hm
    have hm' : m ∈ (d :: ds).map (fun d => { r with Crop_ID := some d.Crop_ID }) := hm
    obtain ⟨d', hd', rfl⟩ := List.mem_map.mp hm'
    have hd'f : d' ∈ dim.filter (fun d => decide (d.Crop = r.src.Crop)) := by
      rw [hfe]; exact hd'
    have := List.mem_filter.mp hd'f
    exact ⟨rfl, rfl, rfl, rfl,
      Or.inr ⟨d', this.1, of_decide_eq_true this.2, rfl⟩⟩

theorem mem_mergeSeasons (dim : List SeasonDimRow) (r m : MergedRow)
    (hm : m ∈ mergeSeasons dim r) :
    m.src = r.src ∧ m.State_ID = r.State_ID ∧ m.Crop_ID = r.Crop_ID ∧
      m.Date_ID = r.Date_ID ∧ seasonOk dim m := by
  unfold mergeSeasons at hm
  cases hfe : dim.filter (fun d => decide (d.Season = r.src.Season)) with
  | nil =>
    rw [hfe] at hm
    have hm' : m ∈ [{ r with Season_ID := none }] := hm
    rw [List.mem_singleton] at hm'
    subst hm'
    exact ⟨rfl, rfl, rfl, rfl, Or.inl ⟨rfl, hfe⟩⟩
  | cons d ds =>
    rw [hfe] at hm
    have hm' : m ∈ (d :: ds).map (fun d => { r with Season_ID := some d.Season_ID }) := hm
    obtain ⟨d', hd', rfl⟩ := List.mem_map.mp hm'
    have hd'f : d' ∈ dim.filter (fun d => decide (d.Season = r.src.Season)) := by
      rw [hfe]; exact hd'
    have := List.mem_filter.mp hd'f
    exact ⟨rfl, rfl, rfl, rfl,
      Or.inr ⟨d', this.1, of_decide_eq_true this.2, rfl⟩⟩

theorem mem_mergeDates (dim : List DateDimRow) (r m : MergedRow)
    (hm : m ∈ mergeDates dim r) :
    m.src = r.src ∧ m.State_ID = r.State_ID ∧ m.Crop_ID = r.Crop_ID ∧
      m.Season_ID = r.Season_ID ∧ dateOk dim m := by
  unfold mergeDates at hm
  cases hfe : dim.filter (fun d => decide (d.Year = r.src.Crop_Year)) with
  | nil =>
    rw [hfe] at hm
    have hm' : m ∈ [{ r with Date_ID := none }] := hm
    rw [List.mem_singleton] at hm'
    subst hm'
    exact ⟨rfl, rfl, rfl, rfl, Or.inl ⟨rfl, hfe⟩⟩
  | cons d ds =>
    rw [hfe] at hm
    have hm' : m ∈ (d :: ds).map (fun d => { r with Date_ID := some d.Date_ID }) := hm
    obtain ⟨d', hd', rfl⟩ := List.mem_map.mp hm'
    have hd'f : d' ∈ dim.filter (fun d => decide (d.Year = r.src.Crop_Year)) := by
      rw [hfe]; exact hd'
    have := List.mem_filter.mp hd'f
    exact ⟨rfl, rfl, rfl, rfl,
      Or.inr ⟨d', this.1, of_decide_eq_true this.2, rfl⟩⟩

theorem stateOk_congr (states : List StateDimRow) {m m' : MergedRow}
    (hsrc : m'.src = m.src) (hid : m'.State_ID = m.State_ID)
    (h : stateOk states m) : stateOk states m' := by
  unfold stateOk at h ⊢
  rw [hsrc, hid]
  exact h

theorem cropOk_congr (crops : List CropDimRow) {m m' : MergedRow}
    (hsrc : m'.src = m.src) (hid : m'.Crop_ID = m.Crop_ID)
    (h : cropOk crops m) : cropOk crops m' := by
  unfold cropOk at h ⊢
  rw [hsrc, hid]
  exact h

theorem seasonOk_congr (seasons : List SeasonDimRow) {m m' : MergedRow}
    (hsrc : m'.src = m.src) (hid : m'.Season_ID = m.Season_ID)
    (h : seasonOk seasons m) : seasonOk seasons m' := by
  unfold seasonOk at h ⊢
  rw [hsrc, hid]
  exact h

/-- Every row of the completed four-way merge comes from a source row
and satisfies the left-join contract on each of the four axes. -/
theorem factMerged_spec (df : List SourceRow) (dims : Dimensions) (m : MergedRow)
    (hm : m ∈ factMerged df dims) :
    m.src ∈ df ∧ stateOk dims.states m ∧ cropOk dims.crops m ∧
      seasonOk dims.seasons m ∧ dateOk dims.dates m := by
  unfold factMerged at hm
  obtain ⟨m3, hm3, hmd⟩ := (mem_mergeRows _ _ _).mp hm
  obtain ⟨m2, hm2, hms⟩ := (mem_mergeRows _ _ _).mp hm3
  obtain ⟨m1, hm1, hmc⟩ := (mem_mergeRows _ _ _).mp hm2
  obtain ⟨m0, hm0, hmst⟩ := (mem_mergeRows _ _ _).mp hm1
  obtain ⟨r, hr, rfl⟩ := List.mem_map.mp hm0
  obtain ⟨hsrc1, _, _, _, hok1⟩ := mem_mergeStates _ _ _ hmst
  obtain ⟨hsrc2, hsid2, _, _, hok2⟩ := mem_mergeCrops _ _ _ hmc
  obtain ⟨hsrc3, hsid3, hcid3, _, hok3⟩ := mem_mergeSeasons _ _ _ hms
  obtain ⟨hsrc4, hsid4, hcid4, hseid4, hok4⟩ := mem_mergeDates _ _ _ hmd
  have hsrc : m.src = r := by
    rw [hsrc4, hsrc3, hsrc2, hsrc1]
  refine ⟨hsrc ▸ hr, ?_, ?_, ?_, hok4⟩
  · exact stateOk_congr _ (hsrc4.trans (hsrc3.trans hsrc2)) (hsid4.trans (hsid3.trans hsid2))
      (stateOk_congr _ rfl rfl hok1)
  · exact cropOk_congr _ (hsrc4.trans hsrc3) (hcid4.trans hcid3) hok2
  · exact seasonOk_congr _ hsrc4 hseid4 hok3

/-! Facts about the columns of the built dimension tables. -/

theorem dims_states_names (cy : Int) (df : List SourceRow) :
    (create_dimension_tables cy df).states.map (·.State_Name) =
      firstSeenDedup (df.map (·.State_Name)) := by
  unfold create_dimension_tables
  simp [List.map_map, Function.comp_def, assignIds_map_snd]

theorem dims_crops_names (cy : Int) (df : List SourceRow) :
    (create_dimension_tables cy df).crops.map (·.Crop) =
      firstSeenDedup (df.map (·.Crop)) := by
  unfold create_dimension_tables
  simp [List.map_map, Function.comp_def, assignIds_map_snd]

theorem dims_seasons_names (cy : Int) (df : List SourceRow) :
    (create_dimension_tables cy df).seasons.map (·.Season) =
      firstSeenDedup (df.map (·.Season)) := by
  unfold create_dimension_tables
  simp [List.map_map, Function.comp_def, assignIds_map_snd]

theorem dims_dates_years (cy : Int) (df : List SourceRow) :
    (create_dimension_tables cy df).dates.map (·.Year) =
      sortInts (firstSeenDedup (df.map (·.Crop_Year))) := by
  unfold create_dimension_tables
  simp [List.map_map, Function.comp_def]

theorem dims_states_ids (cy : Int) (df : List SourceRow) :
    (create_dimension_tables cy df).states.map (·.State_ID) =
      List.range' 1 (firstSeenDedup (df.map (·.State_Name))).length := by
  unfold create_dimension_tables
  simp only [List.map_map, Function.comp_def]
  exact assignIds_map_fst 1 _

theorem dims_crops_ids (cy : Int) (df : List SourceRow) :
    (create_dimension_tables cy df).crops.map (·.Crop_ID) =
      List.range' 1 (firstSeenDedup (df.map (·.Crop))).length := by
  unfold create_dimension_tables
  simp only [List.map_map, Function.comp_def]
  exact assignIds_map_fst 1 _

theorem dims_seasons_ids (cy : Int) (df : List SourceRow) :
    (create_dimension_tables cy df).seasons.map (·.Season_ID) =
      List.range' 1 (firstSeenDedup (df.map (·.Season))).length := by
  unfold create_dimension_tables
  simp only [List.map_map, Function.comp_def]
  exact assignIds_map_fst 1 _

theorem dims_dates_ids (cy : Int) (df : List SourceRow) :
    (create_dimension_tables cy df).dates.map (·.Date_ID) =
      sortInts (firstSeenDedup (df.map (·.Crop_Year))) := by
  unfold create_dimension_tables
  simp [List.map_map, Function.comp_def]

theorem nodup_dims_states_names (cy : Int) (df : List SourceRow) :
    ((create_dimension_tables cy df).states.map (·.State_Name)).Nodup := by
  rw [dims_states_names]; exact nodup_firstSeenDedup _

theorem nodup_dims_crops_names (cy : Int) (df : List SourceRow) :
    ((create_dimension_tables cy df).crops.map (·.Crop)).Nodup := by
  rw [dims_crops_names]; exact nodup_firstSeenDedup _

theorem nodup_dims_seasons_names (cy : Int) (df : List SourceRow) :
    ((create_dimension_tables cy df).seasons.map (·.Season)).Nodup := by
  rw [dims_seasons_names]; exact nodup_firstSeenDedup _

theorem nodup_dims_dates_years (cy : Int) (df : List SourceRow) :
    ((create_dimension_tables cy df).dates.map (·.Year)).Nodup := by
  rw [dims_dates_years]; exact nodup_sortInts _ (nodup_firstSeenDedup _)

theorem nodup_dims_states_ids (cy : Int) (df : List SourceRow) :
    ((create_dimension_tables cy df).states.map (·.State_ID)).Nodup := by
  rw [dims_states_ids]; exact List.nodup_range' _ _

theorem nodup_dims_crops_ids (cy : Int) (df : List SourceRow) :
    ((create_dimension_tables cy df).crops.map (·.Crop_ID)).Nodup := by
  rw [dims_crops_ids]; exact List.nodup_range' _ _

theorem nodup_dims_seasons_ids (cy : Int) (df : List SourceRow) :
    ((create_dimension_tables cy df).seasons.map (·.Season_ID)).Nodup := by
  rw [dims_seasons_ids]; exact List.nodup_range' _ _

theorem nodup_dims_dates_ids (cy : Int) (df : List SourceRow) :
    ((create_dimension_tables cy df).dates.map (·.Date_ID)).Nodup := by
  rw [dims_dates_ids]; exact nodup_sortInts _ (nodup_firstSeenDedup _)

/-! Claim theorems. -/

/-- C1: for every source table and dimension tables produced by the
Dimension Builder (from that table or any other, so that unmatched
natural keys are covered), the fact table built by `create_fact_table`
has exactly as many rows as the source table: each of the four left
joins neither drops nor duplicates a source row, because each
dimension's natural-key column is duplicate-free. -/
theorem c1_fact_row_count (cy : Int) (df df' : List SourceRow) :
    (create_fact_table df (create_dimension_tables cy df')).length = df.length := by
  unfold create_fact_table
  rw [List.length_map]
  unfold factMerged
  rw [mergeRows_length _ (mergeDates_length _ (nodup_dims_dates_years cy df')),
    mergeRows_length _ (mergeSeasons_length _ (nodup_dims_seasons_names cy df')),
    mergeRows_length _ (mergeCrops_length _ (nodup_dims_crops_names cy df')),
    mergeRows_length _ (mergeStates_length _ (nodup_dims_states_names cy df')),
    List.length_map]

theorem assignIds_length {α : Type} (s : Nat) (l : List α) :
    (assignIds s l).length = l.length := by
  induction l generalizing s with
  | nil => rfl
  | cons x xs ih => simp [assignIds, ih]

theorem dims_states_length (cy : Int) (df : List SourceRow) :
    (create_dimension_tables cy df).states.length =
      (firstSeenDedup (df.map (·.State_Name))).length := by
  unfold create_dimension_tables
  simp [assignIds_length]

theorem dims_crops_length (cy : Int) (df : List SourceRow) :
    (create_dimension_tables cy df).crops.length =
      (firstSeenDedup (df.map (·.Crop))).length := by
  unfold create_dimension_tables
  simp [assignIds_length]

theorem dims_seasons_length (cy : Int) (df : List SourceRow) :
    (create_dimension_tables cy df).seasons.length =
      (firstSeenDedup (df.map (·.Season))).length := by
  unfold create_dimension_tables
  simp [assignIds_length]

/-- C2 counterexample: on the 3-row fixture table, whose distinct years
in order of first appearance are `[2020, 2018]`, the Year dimension
carries surrogate identifiers `[2018, 2020]` — the year values
themselves, listed in ascending year order — and not `{1..n}` assigned
by first appearance, refuting the claim for the Year axis. -/
theorem c2_year_ids_counterexample :
    (create_dimension_tables 2025 df3).dates.map (·.Date_ID) = [2018, 2020] ∧
      (create_dimension_tables 2025 df3).dates.map (·.Date_ID) ≠ [1, 2] ∧
      firstSeenDedup (df3.map (·.Crop_Year)) = [2020, 2018] := by
  refine ⟨by decide, by decide, by decide⟩

/-- C2 amended: for the State, Crop and Season dimensions the claim
holds as stated — natural keys are duplicate-free, the keys are the
source column's distinct values in order of first appearance, and the
surrogate identifiers are exactly `1..n`.  For the Year dimension the
surrogate identifier equals the year value itself and the entries are
the distinct years in ascending order (duplicate-free, but not
`{1..n}` and not first-appearance order). -/
theorem c2_dimension_ids (cy : Int) (df : List SourceRow) :
    (((create_dimension_tables cy df).states.map (·.State_Name)).Nodup ∧
      (create_dimension_tables cy df).states.map (·.State_Name) =
        firstSeenDedup (df.map (·.State_Name)) ∧
      (create_dimension_tables cy df).states.map (·.State_ID) =
        List.range' 1 (create_dimension_tables cy df).states.length) ∧
    (((create_dimension_tables cy df).crops.map (·.Crop)).Nodup ∧
      (create_dimension_tables cy df).crops.map (·.Crop) =
        firstSeenDedup (df.map (·.Crop)) ∧
      (create_dimension_tables cy df).crops.map (·.Crop_ID) =
        List.range' 1 (create_dimension_tables cy df).crops.length) ∧
    (((create_dimension_tables cy df).seasons.map (·.Season)).Nodup ∧
      (create_dimension_tables cy df).seasons.map (·.Season) =
        firstSeenDedup (df.map (·.Season)) ∧
      (create_dimension_tables cy df).seasons.map (·.Season_ID) =
        List.range' 1 (create_dimension_tables cy df).seasons.length) ∧
    ((create_dimension_tables cy df).dates.map (·.Date_ID) =
        (create_dimension_tables cy df).dates.map (·.Year) ∧
      List.Sorted (· ≤ ·) ((create_dimension_tables cy df).dates.map (·.Year)) ∧
      ((create_dimension_tables cy df).dates.map (·.Year)).Nodup ∧
      ∀ y, y ∈ (create_dimension_tables cy df).dates.map (·.Year) ↔
        y ∈ df.map (·.Crop_Year)) := by
  refine ⟨⟨nodup_dims_states_names cy df, dims_states_names cy df, ?_⟩,
    ⟨nodup_dims_crops_names cy df, dims_crops_names cy df, ?_⟩,
    ⟨nodup_dims_seasons_names cy df, dims_seasons_names cy df, ?_⟩,
    ?_, ?_, nodup_dims_dates_years cy df, ?_⟩
  · rw [dims_states_ids, dims_states_length]
  · rw [dims_crops_ids, dims_crops_length]
  · rw [dims_seasons_ids, dims_seasons_length]
  · rw [dims_dates_ids, dims_dates_years]
  · rw [dims_dates_years]; exact sorted_sortInts _
  · intro y
    rw [dims_dates_years, mem_sortInts, mem_firstSeenDedup]

/-- C3 counterexample: on a table lacking the `State_Name` column, the
Dimension Builder's first column selection raises `KeyError` — the
result is an error, not a dimension set with an empty States axis,
refuting the claim that an absent column yields an empty dimension
instead of a failure. -/
theorem c3_missing_column_counterexample :
    create_dimension_tables_dyn tNoState = Except.error "KeyError: State_Name" ∧
      (create_dimension_tables_dyn tNoState).isOk = false :=
  ⟨rfl, rfl⟩

/-- C3 amended: if the `State_Name` column is absent from the source
table, `create_dimension_tables` raises `KeyError` (pandas column
selection `df[['State_Name']]`) and the pipeline aborts — there is no
handler that degrades to an empty dimension. -/
theorem c3_missing_column (t : DynTable) (h : "State_Name" ∉ t.cols) :
    create_dimension_tables_dyn t = Except.error "KeyError: State_Name" := by
  unfold create_dimension_tables_dyn selectColumn
  rw [if_neg h]
  rfl

/-- Witness for `c3_missing_column` at the concrete fixture table. -/
theorem c3_missing_column_witness :
    "State_Name" ∉ tNoState.cols ∧
      create_dimension_tables_dyn tNoState = Except.error "KeyError: State_Name" :=
  ⟨by decide, c3_missing_column tNoState (by decide)⟩


/-- A cleaning-stage row with zero area and production 5. -/
def rZeroArea : CleanRow :=
  CleanRow.mk (some "A") (some "D1") 2020 (some "Kharif") (some "Rice") 0 5

/-- A cleaning-stage row with area 1 and production 1000. -/
def rUnitArea : CleanRow :=
  CleanRow.mk (some "A") (some "D1") 2020 (some "Kharif") (some "Rice") 1 1000

/-- C4 counterexample: the cleaning pipeline computes
`Productivity = Production / (Area + 0.001)`.  At `area == 0` the yield
is the finite value `5000`, not null; and at `area == 1`,
`production == 1000` the yield `1000000/1001` misses
`production / area = 1000` by far more than the claimed `1e-6`
tolerance.  Both halves of the claim fail on the code. -/
theorem c4_yield_counterexample :
    (addProductivity rZeroArea).Productivity = some 5000 ∧
      (addProductivity rZeroArea).Productivity ≠ none ∧
      (addProductivity rUnitArea).Productivity = some (1000000/1001) ∧
      ¬ |(1000000 : ℚ)/1001 - 1000| ≤ 1/1000000 := by
  refine ⟨?_, ?_, ?_, ?_⟩
  · show some ((5:ℚ) / (0 + 1/1000)) = some 5000
    rw [Option.some_inj]
    norm_num
  · exact Option.some_ne_none _
  · show some ((1000:ℚ) / (1 + 1/1000)) = some (1000000/1001)
    rw [Option.some_inj]
    norm_num
  · intro hc
    rw [abs_le] at hc
    linarith [hc.1]

/-- C4 amended: for every row with non-negative area (the cleaning has
already replaced negative values by their absolute value), the derived
yield is the finite value `production / (area + 0.001)` — in
particular it satisfies `yield * (area + 0.001) = production`, is never
null and never an error, also when `area == 0`. -/
theorem c4_yield (r : CleanRow) (h : 0 ≤ r.Area) :
    ∃ q : ℚ, (addProductivity r).Productivity = some q ∧
      q * (r.Area + 1/1000) = r.Production := by
  refine ⟨r.Production / (r.Area + 1/1000), rfl, ?_⟩
  have hpos : (0:ℚ) < r.Area + 1/1000 := by linarith
  exact div_mul_cancel₀ r.Production (ne_of_gt hpos)

/-- Witness for `c4_yield` at the zero-area fixture row. -/
theorem c4_yield_witness :
    (0:ℚ) ≤ rZeroArea.Area ∧
      ∃ q : ℚ, (addProductivity rZeroArea).Productivity = some q ∧
        q * (rZeroArea.Area + 1/1000) = rZeroArea.Production :=
  ⟨by decide, c4_yield rZeroArea (by decide)⟩

/-- C5: for every row of the fact-table build (carrying its source
row), and on each of the four axes: whenever the row's surrogate
identifier matched (is non-null), looking up the dimension entry with
that surrogate identifier recovers exactly the row's natural key.
Dimensions are the ones the Dimension Builder produced (from the same
table or any other). -/
theorem c5_roundtrip (cy : Int) (df df' : List SourceRow) (m : MergedRow)
    (hm : m ∈ factMerged df (create_dimension_tables cy df')) :
    (∀ d ∈ (create_dimension_tables cy df').states,
        m.State_ID = some d.State_ID → d.State_Name = m.src.State_Name) ∧
      (∀ d ∈ (create_dimension_tables cy df').crops,
        m.Crop_ID = some d.Crop_ID → d.Crop = m.src.Crop) ∧
      (∀ d ∈ (create_dimension_tables cy df').seasons,
        m.Season_ID = some d.Season_ID → d.Season = m.src.Season) ∧
      (∀ d ∈ (create_dimension_tables cy df').dates,
        m.Date_ID = some d.Date_ID → d.Year = m.src.Crop_Year) := by
  obtain ⟨-, hst, hcr, hse, hda⟩ := factMerged_spec _ _ _ hm
  refine ⟨?_, ?_, ?_, ?_⟩
  · intro d hd hid
    rcases hst with ⟨hnone, -⟩ | ⟨d', hd', hkey, hid'⟩
    · rw [hnone] at hid
      exact absurd hid (by simp)
    · have hdd : d' = d := by
        refine List.inj_on_of_nodup_map (nodup_dims_states_ids cy df') hd' hd ?_
        rw [hid'] at hid
        exact Option.some_inj.mp hid
      rw [← hdd]
      exact hkey
  · intro d hd hid
    rcases hcr with ⟨hnone, -⟩ | ⟨d', hd', hkey, hid'⟩
    · rw [hnone] at hid
      exact absurd hid (by simp)
    · have hdd : d' = d := by
        refine List.inj_on_of_nodup_map (nodup_dims_crops_ids cy df') hd' hd ?_
        rw [hid'] at hid
        exact Option.some_inj.mp hid
      rw [← hdd]
      exact hkey
  · intro d hd hid
    rcases hse with ⟨hnone, -⟩ | ⟨d', hd', hkey, hid'⟩
    · rw [hnone] at hid
      exact absurd hid (by simp)
    · have hdd : d' = d := by
        refine List.inj_on_of_nodup_map (nodup_dims_seasons_ids cy df') hd' hd ?_
        rw [hid'] at hid
        exact Option.some_inj.mp hid
      rw [← hdd]
      exact hkey
  · intro d hd hid
    rcases hda with ⟨hnone, -⟩ | ⟨d', hd', hkey, hid'⟩
    · rw [hnone] at hid
      exact absurd hid (by simp)
    · have hdd : d' = d := by
        refine List.inj_on_of_nodup_map (nodup_dims_dates_ids cy df') hd' hd ?_
        rw [hid'] at hid
        exact Option.some_inj.mp hid
      rw [← hdd]
      exact hkey

/-- The first row of the fixture fact-table build, with its matched
surrogate identifiers. -/
def mRow1 : MergedRow := MergedRow.mk row1 (some 1) (some 1) (some 1) (some 2020)

/-- The States dimension entry of the fixture build with identifier 1. -/
def dState1 : StateDimRow := StateDimRow.mk 1 (some "A")

/-- Witness for `c5_roundtrip` at the fixture table: the first merged
row carries `State_ID = 1`, and the entry with identifier 1 holds the
row's state name. -/
theorem c5_roundtrip_witness :
    mRow1 ∈ factMerged df3 (create_dimension_tables 2025 df3) ∧
      dState1 ∈ (create_dimension_tables 2025 df3).states ∧
      dState1.State_Name = mRow1.src.State_Name :=
  ⟨by decide, by decide,
    (c5_roundtrip 2025 df3 df3 mRow1 (by decide)).1 dState1 (by decide) rfl⟩

/-- Rounding an integer-valued rational to any number of places
returns it unchanged. -/
theorem roundHalfEven_intCast (n : Int) : roundHalfEven ((n:ℚ)) = n := by
  unfold roundHalfEven
  rw [Int.floor_intCast]
  simp

theorem round3_intCast (n : Int) : round3 ((n:ℚ)) = (n:ℚ) := by
  unfold round3
  rw [show ((n:ℚ) * 1000) = (((n * 1000 : Int)):ℚ) by push_cast; ring]
  rw [roundHalfEven_intCast]
  push_cast
  field_simp

/-- C6: on the synthetic 3-row table with states `["A","A","B"]`,
areas `[10,20,30]` and productions `[100,200,150]`, the state summary
reports for "A" `total_area=30, mean_area=15, total_production=300,
mean_production=150` and for "B" `total_area=30, mean_area=30,
total_production=150, mean_production=150`. -/
theorem c6_state_aggregation :
    (create_summary_state df3).map
        (fun r => (r.State_Name, r.Total_Area, r.Avg_Area, r.Total_Production,
          r.Avg_Production)) =
      [("A", 30, 15, 300, 150), ("B", 30, 30, 150, 150)] := by
  have hkeys : sortStrs (firstSeenDedup (df3.filterMap (·.State_Name))) = ["A", "B"] := by
    decide
  have hgrpA : df3.filter (fun r => decide (r.State_Name = some "A")) = [row1, row2] := by
    decide
  have hgrpB : df3.filter (fun r => decide (r.State_Name = some "B")) = [row3] := by
    decide
  have h30 : round3 (30:ℚ) = 30 := by
    have := round3_intCast 30
    norm_num at this
    exact this
  have h15 : round3 (15:ℚ) = 15 := by
    have := round3_intCast 15
    norm_num at this
    exact this
  have h300 : round3 (300:ℚ) = 300 := by
    have := round3_intCast 300
    norm_num at this
    exact this
  have h150 : round3 (150:ℚ) = 150 := by
    have := round3_intCast 150
    norm_num at this
    exact this
  unfold create_summary_state
  rw [hkeys]
  simp only [List.map_cons, List.map_nil, mkStateSummaryRow, hgrpA, hgrpB]
  simp only [List.map_cons, List.map_nil, List.sum_cons, List.sum_nil, listMean,
    List.length_cons, List.length_nil, row1, row2, row3]
  norm_num [h30, h15, h300, h150]

/-- C7: in the state-level summary, every group with exactly one
member has a null yield standard deviation (pandas `std` with
`ddof = 1` needs at least two non-null observations), not zero and not
an error. -/
theorem c7_std_singleton (df : List SourceRow) (k : String) (r : StateSummaryRow)
    (hr : r ∈ create_summary_state df) (hk : r.State_Name = k)
    (h1 : (df.filter (fun x => decide (x.State_Name = some k))).length = 1) :
    r.Yield_StdDev = none := by
  unfold create_summary_state at hr
  obtain ⟨k', hk', rfl⟩ := List.mem_map.mp hr
  have hkk : k' = k := hk
  subst hkk
  show (sampleVariance
    ((df.filter (fun x => decide (x.State_Name = some k'))).filterMap
      (·.Yield_Per_Hectare))).map round3 = none
  have hle : ((df.filter (fun x => decide (x.State_Name = some k'))).filterMap
      (·.Yield_Per_Hectare)).length ≤ 1 := by
    calc ((df.filter (fun x => decide (x.State_Name = some k'))).filterMap
        (·.Yield_Per_Hectare)).length
        ≤ (df.filter (fun x => decide (x.State_Name = some k'))).length :=
          List.length_filterMap_le _ _
      _ = 1 := h1
  unfold sampleVariance
  rw [if_pos (by omega)]
  rfl

/-- Witness for `c7_std_singleton`: in the fixture table, state "B"
has exactly one row, and its summary row carries a null standard
deviation. -/
theorem c7_std_singleton_witness :
    mkStateSummaryRow df3 "B" ∈ create_summary_state df3 ∧
      (mkStateSummaryRow df3 "B").State_Name = "B" ∧
      (df3.filter (fun x => decide (x.State_Name = some "B"))).length = 1 ∧
      (mkStateSummaryRow df3 "B").Yield_StdDev = none := by
  have hmem : mkStateSummaryRow df3 "B" ∈ create_summary_state df3 := by
    unfold create_summary_state
    rw [show sortStrs (firstSeenDedup (df3.filterMap (·.State_Name))) = ["A", "B"] from
      by decide]
    simp
  exact ⟨hmem, rfl, by decide, c7_std_singleton df3 "B" _ hmem rfl (by decide)⟩

/-- C8 counterexample: the fixture table `dfNull` has one row keyed
`some "A"` and one row with a null state key; the state summary emits
only the group "A" — the null-keyed row receives no group of its own
and is silently absent. -/
theorem c8_null_group_counterexample :
    dfNull.map (·.State_Name) = [some "A", none] ∧
      (create_summary_state dfNull).map (·.State_Name) = ["A"] ∧
      (create_summary_state dfNull).length = 1 := by
  have hkeys : sortStrs (firstSeenDedup (dfNull.filterMap (·.State_Name))) = ["A"] := by
    decide
  refine ⟨by decide, ?_, ?_⟩
  · unfold create_summary_state
    rw [hkeys]
    simp [mkStateSummaryRow]
  · unfold create_summary_state
    rw [hkeys]
    simp

theorem filterMap_state_over_nonnull (df : List SourceRow) :
    (df.filter (fun r => r.State_Name.isSome)).filterMap (·.State_Name) =
      df.filterMap (·.State_Name) := by
  induction df with
  | nil => rfl
  | cons r rs ih =>
    cases h : r.State_Name with
    | none => simp [List.filter_cons, List.filterMap_cons, h, ih]
    | some v => simp [List.filter_cons, List.filterMap_cons, h, ih]

theorem filter_key_over_nonnull (df : List SourceRow) (k : String) :
    (df.filter (fun r => r.State_Name.isSome)).filter
        (fun r => decide (r.State_Name = some k)) =
      df.filter (fun r => decide (r.State_Name = some k)) := by
  rw [List.filter_filter]
  refine List.filter_congr ?_
  intro a ha
  cases hx : a.State_Name <;> simp [hx]

/-- C8 amended: rows whose group key is null are silently excluded by
`groupby` (pandas default `dropna=True`): the state summary of any
source table equals the state summary of the table with the null-keyed
rows removed — they are dropped, they never form a group of their own. -/
theorem c8_null_group (df : List SourceRow) :
    create_summary_state (df.filter (fun r => r.State_Name.isSome)) =
      create_summary_state df := by
  unfold create_summary_state
  rw [filterMap_state_over_nonnull]
  refine List.map_congr_left ?_
  intro k hk
  unfold mkStateSummaryRow
  rw [filter_key_over_nonnull]

/-- C9: the outlier-detection step returns the table exactly as it
received it — same rows, same cells, same row count — for every input;
and on the fixture table whose `Area` column `[1,2,3,4,100]` carries
the value 100 beyond the 1.5×IQR bounds `[-1, 7]`, the step reports
one outlier for `Area` while the table is left untouched. -/
theorem c9_outlier_non_removal :
    (∀ df : List ProdRow, (outlier_detection_step df).1 = df) ∧
      (outlier_detection_step dfOutlier).1.length = dfOutlier.length ∧
      (outlier_detection_step dfOutlier).2.head? =
        some (outlierReportFor "Area" (dfOutlier.map (·.row.Area))) ∧
      (outlierReportFor "Area" (dfOutlier.map (·.row.Area))).lower_bound = -1 ∧
      (outlierReportFor "Area" (dfOutlier.map (·.row.Area))).upper_bound = 7 ∧
      (outlierReportFor "Area" (dfOutlier.map (·.row.Area))).outlier_count = 1 := by
  have hmap : dfOutlier.map (·.row.Area) = [(1:ℚ), 2, 3, 4, 100] := by decide
  have hs : sortRats [(1:ℚ), 2, 3, 4, 100] = [1, 2, 3, 4, 100] := by decide
  have hq1 : quantile [(1:ℚ), 2, 3, 4, 100] (1/4) = 2 := by
    unfold quantile
    rw [hs]
    norm_num
  have hq3 : quantile [(1:ℚ), 2, 3, 4, 100] (3/4) = 4 := by
    unfold quantile
    rw [hs]
    norm_num
    decide
  refine ⟨fun df => rfl, rfl, rfl, ?_, ?_, ?_⟩
  · show quantile (dfOutlier.map (·.row.Area)) (1/4) -
      3/2 * (quantile (dfOutlier.map (·.row.Area)) (3/4) -
        quantile (dfOutlier.map (·.row.Area)) (1/4)) = -1
    rw [hmap, hq1, hq3]
    norm_num
  · show quantile (dfOutlier.map (·.row.Area)) (3/4) +
      3/2 * (quantile (dfOutlier.map (·.row.Area)) (3/4) -
        quantile (dfOutlier.map (·.row.Area)) (1/4)) = 7
    rw [hmap, hq1, hq3]
    norm_num
  · show ((dfOutlier.map (·.row.Area)).filter (fun v =>
      decide (v < quantile (dfOutlier.map (·.row.Area)) (1/4) -
          3/2 * (quantile (dfOutlier.map (·.row.Area)) (3/4) -
            quantile (dfOutlier.map (·.row.Area)) (1/4)) ∨
        quantile (dfOutlier.map (·.row.Area)) (3/4) +
          3/2 * (quantile (dfOutlier.map (·.row.Area)) (3/4) -
            quantile (dfOutlier.map (·.row.Area)) (1/4)) < v))).length = 1
    rw [hmap, hq1, hq3]
    norm_num

/-- C10 (implicit): when the fact table is built from the dimension
tables produced from the same source table — the pipeline's intended
call pattern — every fact row's four surrogate-identifier fields are
non-null: every natural key occurring in the source appears in its
dimension by construction, so a join mismatch cannot occur. -/
theorem c10_ids_nonnull (cy : Int) (df : List SourceRow) (fr : FactRow)
    (hfr : fr ∈ create_fact_table df (create_dimension_tables cy df)) :
    fr.State_ID.isSome ∧ fr.Crop_ID.isSome ∧ fr.Season_ID.isSome ∧
      fr.Date_ID.isSome := by
  obtain ⟨m, hm, rfl⟩ := List.mem_map.mp hfr
  obtain ⟨hsrc, hst, hcr, hse, hda⟩ := factMerged_spec _ _ _ hm
  refine ⟨?_, ?_, ?_, ?_⟩
  · rcases hst with ⟨hnone, hfe⟩ | ⟨d, hd, hkey, hid⟩
    · exfalso
      have hmem : m.src.State_Name ∈
          (create_dimension_tables cy df).states.map (·.State_Name) := by
        rw [dims_states_names, mem_firstSeenDedup]
        exact List.mem_map_of_mem _ hsrc
      obtain ⟨d, hd, hdk⟩ := List.mem_map.mp hmem
      have hdf : d ∈ (create_dimension_tables cy df).states.filter
          (fun d => decide (d.State_Name = m.src.State_Name)) :=
        List.mem_filter.mpr ⟨hd, decide_eq_true hdk⟩
      rw [hfe] at hdf
      exact absurd hdf (List.not_mem_nil d)
    · simp [projectFact, hid]
  · rcases hcr with ⟨hnone, hfe⟩ | ⟨d, hd, hkey, hid⟩
    · exfalso
      have hmem : m.src.Crop ∈
          (create_dimension_tables cy df).crops.map (·.Crop) := by
        rw [dims_crops_names, mem_firstSeenDedup]
        exact List.mem_map_of_mem _ hsrc
      obtain ⟨d, hd, hdk⟩ := List.mem_map.mp hmem
      have hdf : d ∈ (create_dimension_tables cy df).crops.filter
          (fun d => decide (d.Crop = m.src.Crop)) :=
        List.mem_filter.mpr ⟨hd, decide_eq_true hdk⟩
      rw [hfe] at hdf
      exact absurd hdf (List.not_mem_nil d)
    · simp [projectFact, hid]
  · rcases hse with ⟨hnone, hfe⟩ | ⟨d, hd, hkey, hid⟩
    · exfalso
      have hmem : m.src.Season ∈
          (create_dimension_tables cy df).seasons.map (·.Season) := by
        rw [dims_seasons_names, mem_firstSeenDedup]
        exact List.mem_map_of_mem _ hsrc
      obtain ⟨d, hd, hdk⟩ := List.mem_map.mp hmem
      have hdf : d ∈ (create_dimension_tables cy df).seasons.filter
          (fun d => decide (d.Season = m.src.Season)) :=
        List.mem_filter.mpr ⟨hd, decide_eq_true hdk⟩
      rw [hfe] at hdf
      exact absurd hdf (List.not_mem_nil d)
    · simp [projectFact, hid]
  · rcases hda with ⟨hnone, hfe⟩ | ⟨d, hd, hkey, hid⟩
    · exfalso
      have hmem : m.src.Crop_Year ∈
          (create_dimension_tables cy df).dates.map (·.Year) := by
        rw [dims_dates_years, mem_sortInts, mem_firstSeenDedup]
        exact List.mem_map_of_mem _ hsrc
      obtain ⟨d, hd, hdk⟩ := List.mem_map.mp hmem
      have hdf : d ∈ (create_dimension_tables cy df).dates.filter
          (fun d => decide (d.Year = m.src.Crop_Year)) :=
        List.mem_filter.mpr ⟨hd, decide_eq_true hdk⟩
      rw [hfe] at hdf
      exact absurd hdf (List.not_mem_nil d)
    · simp [projectFact, hid]

/-- The fact row of the first fixture source row, with all four
surrogate identifiers matched. -/
def fFact1 : FactRow :=
  FactRow.mk (some 1) (some 1) (some 1) (some 2020) (some "D1") 10 100 (some 10) 25 100

/-- Witness for `c10_ids_nonnull` at the fixture table. -/
theorem c10_ids_nonnull_witness :
    fFact1 ∈ create_fact_table df3 (create_dimension_tables 2025 df3) ∧
      (fFact1.State_ID.isSome ∧ fFact1.Crop_ID.isSome ∧ fFact1.Season_ID.isSome ∧
        fFact1.Date_ID.isSome) :=
  ⟨by decide, c10_ids_nonnull 2025 df3 fFact1 (by decide)⟩

end Capstone
